import Mathlib

/-!
Shallow embedding of the BRACU Learning Hub dashboard app
(`src/dashboard/models.py`, `src/dashboard/views.py`).

Entities are embedded as structures over `Nat` ids and `Int` counters
(Django `IntegerField`); each database table is a `List` of rows.
View functions become pure functions from the relevant table states to
(new table state, response); Python exceptions surface as `Except`.
-/

namespace LearningHub

/-- `Material` rows (models.py 51-75). Only the fields the verified views
touch are carried; `subjectId` stands for the `subject` foreign key and
`uploaded_by` for the uploader's user id. -/
structure Material where
  id : Nat
  title : String
  description : String
  tags : String
  uploaded_by : Nat
  subjectId : Nat
  material_type : String
  is_approved : Bool
  views : Int
  deriving DecidableEq, Repr

/-- `Rating` rows (models.py 77-87): `unique_together ('material', 'user')`
holds in the database; `score` is a plain `IntegerField` (its `choices`
list 1..5 is not enforced on `save()`). -/
structure Rating where
  material : Nat
  user : Nat
  score : Int
  deriving DecidableEq, Repr

/-- `SavedMaterial` rows (models.py 102-112): `unique_together ('user', 'material')`. -/
structure SavedMaterial where
  user : Nat
  material : Nat
  deriving DecidableEq, Repr

/-- `Profile` rows (models.py 14-31); only the one-to-one `user` key matters
for the verified behaviour. -/
structure Profile where
  user : Nat
  deriving DecidableEq, Repr

/-- `StudyGroup` rows (models.py 152-163). `members` embeds the
many-to-many through-table restricted to this group: a duplicate-free
list of user ids (M2M `add` never duplicates a pair). -/
structure StudyGroup where
  name : String
  subjectId : Nat
  created_by : Nat
  members : List Nat
  is_public : Bool
  max_members : Int
  deriving DecidableEq, Repr

/-- Database-layer exceptions raised by the ORM calls the views make. -/
inductive DbError
  | multipleObjectsReturned
  deriving DecidableEq, Repr

/-- Python-level exceptions the handlers can raise. -/
inductive PyError
  | nameError (missing : String)
  | relatedObjectDoesNotExist
  deriving DecidableEq, Repr

/-- The row predicate `user=u, material=m` used by `rate_material`'s
`update_or_create` lookup (views.py 186-189). -/
def ratingMatches (u m : Nat) (r : Rating) : Bool :=
  r.user == u && r.material == m

/-- views.py 179-193, POST branch with a `score` value present:
`Rating.objects.update_or_create(user=.., material=.., defaults={score})`.
`update_or_create` gets the row for the pair: none → create, exactly
one → overwrite its `score`, several → `MultipleObjectsReturned`
(unreachable under the table's unique constraint). -/
def rate_material (ratings : List Rating) (u m : Nat) (s : Int) :
    Except DbError (List Rating) :=
  match ratings.filter (ratingMatches u m) with
  | [] => .ok ({ material := m, user := u, score := s } :: ratings)
  | [_] => .ok (ratings.map fun r =>
      if ratingMatches u m r then { r with score := s } else r)
  | _ => .error .multipleObjectsReturned

/-- Submitting twice in a row, as in the spec's score-3-then-score-5 scenario. -/
def rateTwice (ratings : List Rating) (u m : Nat) (s1 s2 : Int) :
    Except DbError (List Rating) :=
  (rate_material ratings u m s1).bind fun mid => rate_material mid u m s2

/-- The row predicate `user=u, material=m` on the saved-material table. -/
def savedMatches (u m : Nat) (s : SavedMaterial) : Bool :=
  s.user == u && s.material == m

/-- views.py 166-177: if a `SavedMaterial` row for (user, material) exists,
delete the matching rows; otherwise create one. -/
def save_material (saved : List SavedMaterial) (u m : Nat) : List SavedMaterial :=
  if saved.any (savedMatches u m) then
    saved.filter fun s => !(savedMatches u m s)
  else
    { user := u, material := m } :: saved

/-- Whether (u, m) is currently saved — the `.exists()` check the view and
the detail page both perform. -/
def savedState (saved : List SavedMaterial) (u m : Nat) : Bool :=
  saved.any (savedMatches u m)

/-- Outcome message of a join attempt (views.py 323 and 325). -/
inductive JoinMessage
  | joined
  | groupFull
  deriving DecidableEq, Repr

/-- Django M2M `members.add(user)`: set-based, adding an existing member
changes nothing. -/
def addMember (members : List Nat) (u : Nat) : List Nat :=
  if u ∈ members then members else u :: members

/-- views.py 317-327: join succeeds and adds the user exactly when
`members.count() < max_members`; otherwise the group is left as-is with a
"Study group is full!" error message. -/
def study_group_join (g : StudyGroup) (u : Nat) : StudyGroup × JoinMessage :=
  if (g.members.length : Int) < g.max_members then
    ({ g with members := addMember g.members u }, .joined)
  else
    (g, .groupFull)

/-- Every name bound at module level in views.py: the two import blocks
(lines 1-13) plus the view functions the module itself defines. `models`
is not among them. -/
def viewsModuleNames : List String :=
  ["render", "redirect", "get_object_or_404", "login_required", "login",
   "messages", "Q",
   "Profile", "Material", "Rating", "Comment", "SavedMaterial",
   "Post", "PostComment", "StudyGroup", "Subject", "Department",
   "UserRegisterForm", "ProfileUpdateForm", "MaterialUploadForm",
   "MaterialUpdateForm", "PostForm", "CommentForm", "PostCommentForm",
   "home", "register", "profile", "profile_edit",
   "material_list", "material_detail", "material_upload", "material_edit",
   "material_delete", "save_material", "rate_material", "add_comment",
   "saved_materials", "post_list", "post_detail", "post_create",
   "add_post_comment", "study_group_list", "study_group_detail",
   "study_group_create", "study_group_join", "search", "admin_dashboard"]

/-- The rendering context `material_detail` would pass to its template. -/
structure DetailPage where
  materialId : Nat
  is_saved : Bool
  user_rating : Option Int
  avg_rating : Rat
  deriving DecidableEq, Repr

/-- views.py 96-123 on an existing material: increment and persist
`views` (lines 98-99), read comments/ratings/saved state, then evaluate
`models.Avg('score')` (line 113). Name lookup of `models` consults the
module's bound names; an unbound name raises `NameError` after the
counter was already saved (autocommit: the earlier save is not rolled
back). -/
def material_detail (m : Material) (ratings : List Rating)
    (saved : List SavedMaterial) (requestUser : Option Nat) :
    Material × Except PyError DetailPage :=
  let saved_m := { m with views := m.views + 1 }
  let is_saved := match requestUser with
    | some u => savedState saved u m.id
    | none => false
  let user_rating := match requestUser with
    | some u => ((ratings.filter (ratingMatches u m.id)).head?).map (·.score)
    | none => none
  if viewsModuleNames.contains "models" then
    let scores := (ratings.filter (·.material == m.id)).map (·.score)
    let avg : Rat :=
      if scores.isEmpty then 0
      else (scores.foldr (· + ·) 0 : Int) / (scores.length : Rat)
    (saved_m, .ok { materialId := m.id, is_saved := is_saved,
                    user_rating := user_rating, avg_rating := avg })
  else
    (saved_m, .error (.nameError "models"))

/-- The material state after `n` successive detail-view requests. -/
def material_detail_iter (ratings : List Rating) (saved : List SavedMaterial)
    (requestUser : Option Nat) (m : Material) : Nat → Material
  | 0 => m
  | n + 1 =>
      (material_detail (material_detail_iter ratings saved requestUser m n)
        ratings saved requestUser).1

/-- `leadsWith q l`: `q` is a leading segment of `l`. -/
def leadsWith : List Char → List Char → Bool
  | [], _ => true
  | _ :: _, [] => false
  | c :: cs, d :: ds => c == d && leadsWith cs ds

/-- `occursIn q l`: `q` occurs contiguously somewhere inside `l`
(SQL `LIKE %q%` on character lists). -/
def occursIn (q : List Char) : List Char → Bool
  | [] => q.isEmpty
  | d :: ds => leadsWith q (d :: ds) || occursIn q ds

/-- Case-insensitive substring match: Django's `__icontains` lookup. -/
def icontains (hay q : String) : Bool :=
  occursIn (q.toList.map Char.toLower) (hay.toList.map Char.toLower)

/-- The `Q(title__icontains=q) | Q(description__icontains=q) |
Q(tags__icontains=q)` disjunction used by both `material_list` and
`search`. -/
def materialMatchesQ (q : String) (m : Material) : Bool :=
  icontains m.title q || icontains m.description q || icontains m.tags q

/-- views.py 330-337, materials part of the global search: filter by the
text disjunction, then by approval, then slice to the first 10 (`[:10]`). -/
def searchMaterials (mats : List Material) (q : String) : List Material :=
  ((mats.filter (materialMatchesQ q)).filter (·.is_approved)).take 10

/-- Python truthiness of `request.GET.get(..)`: `None` and `''` are falsy. -/
def truthyStr : Option String → Bool
  | none => false
  | some s => !(s == "")

/-- views.py 70-94: all approved materials, with each filter applied only
when its GET parameter is truthy. `subjectFilter` carries the subject id
already parsed from the query string. -/
def material_list (mats : List Material) (subjectFilter : Option Nat)
    (typeFilter q : Option String) : List Material :=
  let ms := mats.filter (·.is_approved)
  let ms := match subjectFilter with
    | some sid => ms.filter (·.subjectId == sid)
    | none => ms
  let ms := if truthyStr typeFilter then
      ms.filter (·.material_type == typeFilter.getD "")
    else ms
  if truthyStr q then ms.filter (materialMatchesQ (q.getD "")) else ms

/-- Responses the material edit/delete handlers can produce. -/
inductive HttpResponse
  | notFound
  | editFormPage (pk : Nat)
  | confirmDeletePage (pk : Nat)
  | redirectDetail (pk : Nat)
  | redirectList
  deriving DecidableEq, Repr

/-- The fields `MaterialUpdateForm` edits (forms.py 51-54). -/
structure MaterialForm where
  title : String
  description : String
  subjectId : Nat
  material_type : String
  tags : String
  deriving DecidableEq, Repr

/-- `form.save()` on the fetched instance. -/
def applyUpdateForm (f : MaterialForm) (m : Material) : Material :=
  { m with title := f.title, description := f.description,
           subjectId := f.subjectId, material_type := f.material_type,
           tags := f.tags }

/-- `get_object_or_404(Material, pk=pk, uploaded_by=request.user)`
(views.py 142 and 157): the lookup itself is filtered on ownership, so a
material owned by someone else is as invisible as a missing pk. -/
def get_object_or_404_owned (mats : List Material) (pk u : Nat) : Option Material :=
  mats.find? fun m => m.id == pk && m.uploaded_by == u

/-- views.py 140-153. `post = some f` is the valid-POST branch; `none` the
GET branch rendering the form. A failed lookup is a 404 with the store
untouched. -/
def material_edit (mats : List Material) (pk u : Nat)
    (post : Option MaterialForm) : HttpResponse × List Material :=
  match get_object_or_404_owned mats pk u with
  | none => (.notFound, mats)
  | some m =>
    match post with
    | some f => (.redirectDetail m.id,
        mats.map fun x => if x.id == pk then applyUpdateForm f x else x)
    | none => (.editFormPage m.id, mats)

/-- views.py 155-164: POST deletes the fetched row, GET renders the
confirmation page; a failed (non-owner or missing) lookup is a 404. -/
def material_delete (mats : List Material) (pk u : Nat) (isPost : Bool) :
    HttpResponse × List Material :=
  match get_object_or_404_owned mats pk u with
  | none => (.notFound, mats)
  | some m =>
    if isPost then (.redirectList, mats.filter fun x => !(x.id == pk))
    else (.confirmDeletePage m.id, mats)

/-- models.py 33-36, `create_profile` post_save receiver on User: on a
freshly created user, insert a Profile row. -/
def create_profile (profiles : List Profile) (uid : Nat) (created : Bool) :
    List Profile :=
  if created then { user := uid } :: profiles else profiles

/-- models.py 38-40, `save_profile` post_save receiver on User:
`instance.profile.save()` re-saves the existing row (no structural
change); it raises `RelatedObjectDoesNotExist` when the user has no
profile row. -/
def save_profile (profiles : List Profile) (uid : Nat) :
    Except PyError (List Profile) :=
  if profiles.any (·.user == uid) then .ok profiles
  else .error .relatedObjectDoesNotExist

/-- Firing the two post_save receivers in connection order
(`create_profile` first, then `save_profile`). -/
def fireUserPostSave (profiles : List Profile) (uid : Nat) (created : Bool) :
    Except PyError (List Profile) :=
  save_profile (create_profile profiles uid created) uid

/-- The user and profile tables. -/
structure UserTable where
  users : List Nat
  profiles : List Profile
  deriving DecidableEq, Repr

/-- Creating a user with a fresh id: insert the row, then Django fires
post_save with `created=True`, running both receivers. -/
def createUser (st : UserTable) (uid : Nat) : Except PyError UserTable :=
  match fireUserPostSave st.profiles uid true with
  | .ok ps => .ok { users := uid :: st.users, profiles := ps }
  | .error e => .error e

/-- The documented range of a rating score (the model's `choices` run
over 1..5). -/
def scoreInRange (r : Rating) : Prop :=
  1 ≤ r.score ∧ r.score ≤ 5

/-! ## Helper lemmas -/

theorem ratingMatches_self (u m : Nat) (s : Int) :
    ratingMatches u m { material := m, user := u, score := s } = true := by
  simp [ratingMatches]

theorem ratingMatches_set_score (u m : Nat) (r : Rating) (s : Int) :
    ratingMatches u m { r with score := s } = ratingMatches u m r := rfl

/-- One `rate_material` call on a store obeying the unique constraint
succeeds and leaves exactly one (u, m) row, carrying the submitted score. -/
theorem rate_material_ok (ratings : List Rating) (u m : Nat) (s : Int)
    (h : ratings.countP (ratingMatches u m) ≤ 1) :
    ∃ rs', rate_material ratings u m s = .ok rs' ∧
      rs'.countP (ratingMatches u m) = 1 ∧
      ∀ r ∈ rs', ratingMatches u m r = true → r.score = s := by
  rcases hfil : ratings.filter (ratingMatches u m) with _ | ⟨a, _ | ⟨b, t⟩⟩
  · have h0 : ratings.countP (ratingMatches u m) = 0 := by
      rw [List.countP_eq_length_filter, hfil]; rfl
    have heq : rate_material ratings u m s =
        .ok ({ material := m, user := u, score := s } :: ratings) := by
      unfold rate_material
      rw [hfil]
    refine ⟨_, heq, ?_, ?_⟩
    · rw [List.countP_cons, ratingMatches_self, h0]
      simp
    · intro r hr hkey
      rcases List.mem_cons.mp hr with rfl | hr
      · rfl
      · exfalso
        have : r ∈ ratings.filter (ratingMatches u m) := List.mem_filter.mpr ⟨hr, hkey⟩
        rw [hfil] at this
        exact absurd this (List.not_mem_nil r)
  · have h1 : ratings.countP (ratingMatches u m) = 1 := by
      rw [List.countP_eq_length_filter, hfil]; rfl
    have heq : rate_material ratings u m s = .ok (ratings.map fun r =>
        if ratingMatches u m r then { r with score := s } else r) := by
      unfold rate_material
      rw [hfil]
    refine ⟨_, heq, ?_, ?_⟩
    · rw [List.countP_map]
      calc ratings.countP (fun r => ratingMatches u m
              (if ratingMatches u m r then { r with score := s } else r))
          = ratings.countP (ratingMatches u m) := by
            apply List.countP_congr
            intro r _
            by_cases hk : ratingMatches u m r
            · rw [if_pos hk, ratingMatches_set_score]
            · rw [if_neg hk]
        _ = 1 := h1
    · intro r hr hkey
      obtain ⟨r0, _, rfl⟩ := List.mem_map.mp hr
      by_cases hk : ratingMatches u m r0
      · rw [if_pos hk]
      · rw [if_neg hk] at hkey
        exact absurd hkey hk
  · exfalso
    rw [List.countP_eq_length_filter, hfil] at h
    simp at h

/-- Claim C1: submitting a rating overwrites the existing Rating row for
(u, m) if one exists and creates one otherwise: on any store obeying the
unique constraint, submitting score s1 and then score s2 raises no error
and leaves exactly one (u, m) row, whose score is s2. -/
theorem rating_upsert_idempotent_overwrite (ratings : List Rating) (u m : Nat)
    (s1 s2 : Int) (h : ratings.countP (ratingMatches u m) ≤ 1) :
    ∃ rs2, rateTwice ratings u m s1 s2 = .ok rs2 ∧
      rs2.countP (ratingMatches u m) = 1 ∧
      ∀ r ∈ rs2, ratingMatches u m r = true → r.score = s2 := by
  obtain ⟨rs1, he1, hc1, _⟩ := rate_material_ok ratings u m s1 h
  obtain ⟨rs2, he2, hc2, hs2⟩ := rate_material_ok rs1 u m s2 hc1.le
  exact ⟨rs2, by rw [rateTwice, he1, Except.bind, he2], hc2, hs2⟩

/-- Claim C1 witness: user 1 rates material 2 with score 3 and then
score 5 on an empty store. -/
theorem rating_upsert_idempotent_overwrite_witness :
    ([] : List Rating).countP (ratingMatches 1 2) ≤ 1 ∧
    ∃ rs2, rateTwice [] 1 2 3 5 = .ok rs2 ∧
      rs2.countP (ratingMatches 1 2) = 1 ∧
      ∀ r ∈ rs2, ratingMatches 1 2 r = true → r.score = 5 :=
  ⟨by decide, rating_upsert_idempotent_overwrite [] 1 2 3 5 (by decide)⟩

theorem any_of_filter_negation {α : Type} (p : α → Bool) (l : List α) :
    (l.filter fun x => !(p x)).any p = false := by
  induction l with
  | nil => rfl
  | cons a t ih =>
      by_cases ha : p a <;> simp [List.filter_cons, ha, ih]

/-- A single save-toggle flips the saved flag of its (user, material) pair. -/
theorem savedState_toggle (saved : List SavedMaterial) (u m : Nat) :
    savedState (save_material saved u m) u m = !(savedState saved u m) := by
  by_cases hs : saved.any (savedMatches u m)
  · simp only [save_material, savedState, hs, if_pos]
    rw [any_of_filter_negation]
    rfl
  · simp only [save_material, savedState, hs, if_neg]
    simp [savedMatches, List.any_cons]

/-- Claim C2: the save-toggle deletes the SavedMaterial record for (u, m)
if one exists and creates one otherwise, so the saved flag flips on every
call and two successive calls restore its original value. -/
theorem save_toggle_round_trip (saved : List SavedMaterial) (u m : Nat) :
    savedState (save_material saved u m) u m = !(savedState saved u m) ∧
    savedState (save_material (save_material saved u m) u m) u m
      = savedState saved u m := by
  refine ⟨savedState_toggle saved u m, ?_⟩
  rw [savedState_toggle, savedState_toggle, Bool.not_not]

/-- `addMember` adds exactly the new user id. -/
theorem mem_addMember (members : List Nat) (u v : Nat) :
    v ∈ addMember members u ↔ v ∈ members ∨ v = u := by
  unfold addMember
  by_cases h : u ∈ members
  · rw [if_pos h]
    constructor
    · exact Or.inl
    · rintro (hv | rfl)
      · exact hv
      · exact h
  · rw [if_neg h, List.mem_cons]
    constructor
    · rintro (rfl | hv)
      · exact Or.inr rfl
      · exact Or.inl hv
    · rintro (hv | rfl)
      · exact Or.inr hv
      · exact Or.inl rfl

/-- Claim C3: join adds u to the membership set exactly when the member
count is strictly below max_members; at or above the cap it produces the
"group full" error and returns the group unchanged. -/
theorem study_group_join_cap (g : StudyGroup) (u : Nat) :
    (∀ v : Nat, v ∈ (study_group_join g u).1.members ↔
      (v ∈ g.members ∨ (v = u ∧ (g.members.length : Int) < g.max_members))) ∧
    ((study_group_join g u).2 = JoinMessage.groupFull ↔
      ¬ (g.members.length : Int) < g.max_members) ∧
    (¬ (g.members.length : Int) < g.max_members →
      study_group_join g u = (g, JoinMessage.groupFull)) := by
  by_cases hlt : (g.members.length : Int) < g.max_members
  · refine ⟨?_, ?_, fun hc => absurd hlt hc⟩
    · intro v
      simp [study_group_join, hlt, mem_addMember]
    · simp [study_group_join, hlt]
  · refine ⟨?_, ?_, fun _ => by simp [study_group_join, hlt]⟩
    · intro v
      simp [study_group_join, hlt]
    · simp [study_group_join, hlt]

/-- Claim C4: each detail-view request adds exactly 1 to the persisted
view counter, independent of the viewer, and n requests add n. -/
theorem views_counter_adds_n (m : Material) (ratings : List Rating)
    (saved : List SavedMaterial) (requestUser : Option Nat) (n : Nat) :
    (material_detail m ratings saved requestUser).1.views = m.views + 1 ∧
    (material_detail_iter ratings saved requestUser m n).views
      = m.views + (n : Int) := by
  refine ⟨rfl, ?_⟩
  induction n with
  | zero => simp [material_detail_iter]
  | succ k ih =>
      have hstep : ∀ x : Material,
          (material_detail x ratings saved requestUser).1.views = x.views + 1 :=
        fun _ => rfl
      rw [material_detail_iter, hstep, ih]
      push_cast
      ring

/-- Claim C5: on every request for an existing material the handler first
persists the incremented view counter, then hits the unbound name
`models` (views.py line 113) and raises NameError, so no detail page is
ever produced. -/
theorem material_detail_raises_name_error (m : Material) (ratings : List Rating)
    (saved : List SavedMaterial) (requestUser : Option Nat) :
    (material_detail m ratings saved requestUser).2
      = .error (.nameError "models") ∧
    (material_detail m ratings saved requestUser).1.views = m.views + 1 ∧
    ∀ page : DetailPage,
      (material_detail m ratings saved requestUser).2 ≠ .ok page := by
  refine ⟨rfl, rfl, ?_⟩
  intro page hpage
  have : (Except.error (PyError.nameError "models") : Except PyError DetailPage)
      = .ok page := hpage
  exact Except.noConfusion this

/-- A minimal approved material with id `i`, used as concrete test data. -/
def sampleMaterial (i : Nat) : Material :=
  { id := i, title := "t", description := "d", tags := "",
    uploaded_by := 0, subjectId := 0, material_type := "note",
    is_approved := true, views := 0 }

/-- Eleven approved materials: more than the search slice keeps. -/
def elevenMaterials : List Material := (List.range 11).map sampleMaterial

/-- Three approved materials: few enough to fit in the search slice. -/
def threeMaterials : List Material := (List.range 3).map sampleMaterial

/-- Claim C6 counterexample: with 11 approved materials, all matching the
empty query, the search endpoint returns only 10 of them — its `[:10]`
slice omits a material, so it does not return all approved materials. -/
theorem search_empty_query_omits_a_material :
    (elevenMaterials.filter (·.is_approved)).length = 11 ∧
    (searchMaterials elevenMaterials "").length = 10 ∧
    searchMaterials elevenMaterials "" ≠ elevenMaterials.filter (·.is_approved) := by
  refine ⟨rfl, rfl, ?_⟩
  intro h
  have hlen := congrArg List.length h
  simp only [] at hlen
  rw [show (searchMaterials elevenMaterials "").length = 10 from rfl,
    show (elevenMaterials.filter (·.is_approved)).length = 11 from rfl] at hlen
  exact absurd hlen (by decide)

/-- The empty pattern occurs in every character list. -/
theorem occursIn_nil (l : List Char) : occursIn [] l = true := by
  cases l with
  | nil => rfl
  | cons c cs => simp [occursIn, leadsWith]

/-- Every material matches the empty search query. -/
theorem materialMatchesQ_empty (m : Material) : materialMatchesQ "" m = true := by
  have hq : ("" : String).toList.map Char.toLower = [] := rfl
  simp [materialMatchesQ, icontains, hq, occursIn_nil]

/-- Claim C6 amended: search with an empty query matches every material
and keeps the approved ones, but truncates to the first 10; it returns
exactly the approved materials when at most 10 exist, while
material_list with an empty query returns all of them untruncated. -/
theorem search_empty_query_first_ten (mats : List Material)
    (h : (mats.filter (·.is_approved)).length ≤ 10) :
    searchMaterials mats "" = mats.filter (·.is_approved) ∧
    material_list mats none none (some "") = mats.filter (·.is_approved) := by
  constructor
  · unfold searchMaterials
    have hf : mats.filter (materialMatchesQ "") = mats :=
      List.filter_eq_self.mpr fun a _ => materialMatchesQ_empty a
    rw [hf]
    exact List.take_of_length_le h
  · simp [material_list, truthyStr]

/-- Claim C6 amended witness: three approved materials pass through the
search slice untouched. -/
theorem search_empty_query_first_ten_witness :
    (threeMaterials.filter (·.is_approved)).length ≤ 10 ∧
    (searchMaterials threeMaterials "" = threeMaterials.filter (·.is_approved) ∧
     material_list threeMaterials none none (some "")
       = threeMaterials.filter (·.is_approved)) :=
  ⟨by decide, search_empty_query_first_ten threeMaterials (by decide)⟩

instance scoreInRangeDecidable (r : Rating) : Decidable (scoreInRange r) :=
  inferInstanceAs (Decidable (1 ≤ r.score ∧ r.score ≤ 5))

/-- Claim C7 counterexample: the rating view persists the posted score
without range validation — posting score 9 stores a Rating row whose
score is outside [1,5]. -/
theorem rating_out_of_range_is_stored :
    rate_material [] 7 1 9 = .ok [{ material := 1, user := 7, score := 9 }] ∧
    ¬ scoreInRange { material := 1, user := 7, score := 9 } :=
  ⟨rfl, by decide⟩

/-- Claim C7 amended: the rating operation stores the submitted score
as-is, so stored scores stay in [1,5] provided every submitted score is;
the model's 1..5 choices are not enforced at save time. -/
theorem rating_score_range_preserved (ratings : List Rating) (u m : Nat)
    (s : Int) (hs : 1 ≤ s ∧ s ≤ 5) (hall : ∀ r ∈ ratings, scoreInRange r)
    (rs' : List Rating) (hok : rate_material ratings u m s = .ok rs') :
    ∀ r ∈ rs', scoreInRange r := by
  rcases hfil : ratings.filter (ratingMatches u m) with _ | ⟨a, _ | ⟨b, t⟩⟩ <;>
    rw [rate_material, hfil] at hok
  · cases hok
    intro r hr
    rcases List.mem_cons.mp hr with rfl | hr
    · exact hs
    · exact hall r hr
  · cases hok
    intro r hr
    obtain ⟨r0, hr0, rfl⟩ := List.mem_map.mp hr
    by_cases hk : ratingMatches u m r0
    · rw [if_pos hk]
      exact hs
    · rw [if_neg hk]
      exact hall r0 hr0
  · exact Except.noConfusion hok

/-- Claim C7 amended witness: overwriting an in-range rating with
score 4 keeps every stored score in range. -/
theorem rating_score_range_preserved_witness :
    ((1 : Int) ≤ 4 ∧ (4 : Int) ≤ 5) ∧
    (∀ r ∈ [({ material := 1, user := 2, score := 3 } : Rating)], scoreInRange r) ∧
    rate_material [{ material := 1, user := 2, score := 3 }] 2 1 4
      = .ok [{ material := 1, user := 2, score := 4 }] ∧
    ∀ r ∈ [({ material := 1, user := 2, score := 4 } : Rating)], scoreInRange r :=
  ⟨by decide, by decide, rfl,
    rating_score_range_preserved [{ material := 1, user := 2, score := 3 }] 2 1 4
      (by decide) (by decide) [{ material := 1, user := 2, score := 4 }] rfl⟩

/-- When no row with pk `pk` is owned by `u`, the ownership-filtered
lookup comes back empty. -/
theorem get_object_or_404_owned_eq_none (mats : List Material) (pk u : Nat)
    (h : ∀ x ∈ mats, x.id = pk → x.uploaded_by ≠ u) :
    get_object_or_404_owned mats pk u = none := by
  apply List.find?_eq_none.mpr
  intro x hx hpx
  simp only [Bool.and_eq_true, beq_iff_eq] at hpx
  exact h x hx hpx.1 hpx.2

/-- Claim C8: an edit or delete request by a non-owner produces the same
not-found response as a request for a missing pk, and leaves the store
unchanged. -/
theorem non_owner_edit_delete_collapses_to_404 (mats : List Material)
    (pk pk2 u : Nat) (post : Option MaterialForm) (isPost : Bool)
    (hown : ∀ x ∈ mats, x.id = pk → x.uploaded_by ≠ u)
    (habsent : ∀ x ∈ mats, x.id ≠ pk2) :
    material_edit mats pk u post = (.notFound, mats) ∧
    material_delete mats pk u isPost = (.notFound, mats) ∧
    material_edit mats pk u post = material_edit mats pk2 u post ∧
    material_delete mats pk u isPost = material_delete mats pk2 u isPost := by
  have h1 : get_object_or_404_owned mats pk u = none :=
    get_object_or_404_owned_eq_none mats pk u hown
  have h2 : get_object_or_404_owned mats pk2 u = none :=
    get_object_or_404_owned_eq_none mats pk2 u fun x hx hid _ =>
      habsent x hx hid
  refine ⟨?_, ?_, ?_, ?_⟩ <;> simp [material_edit, material_delete, h1, h2]

/-- Claim C8 witness: user 2 asks to edit and delete material 5, which
user 0 uploaded; pk 9 does not exist. -/
theorem non_owner_edit_delete_collapses_to_404_witness :
    (∀ x ∈ [sampleMaterial 5], x.id = 5 → x.uploaded_by ≠ 2) ∧
    (∀ x ∈ [sampleMaterial 5], x.id ≠ 9) ∧
    (material_edit [sampleMaterial 5] 5 2 none = (.notFound, [sampleMaterial 5]) ∧
     material_delete [sampleMaterial 5] 5 2 true = (.notFound, [sampleMaterial 5]) ∧
     material_edit [sampleMaterial 5] 5 2 none = material_edit [sampleMaterial 5] 9 2 none ∧
     material_delete [sampleMaterial 5] 5 2 true
       = material_delete [sampleMaterial 5] 9 2 true) :=
  ⟨by decide, by decide,
    non_owner_edit_delete_collapses_to_404 [sampleMaterial 5] 5 9 2 none true
      (by decide) (by decide)⟩

/-- Claim C9: creating a user with a fresh id fires both post_save
receivers without error and leaves exactly one Profile row for that
user. -/
theorem profile_created_exactly_once (st : UserTable) (uid : Nat)
    (hfresh : st.profiles.countP (·.user == uid) = 0) :
    ∃ st', createUser st uid = .ok st' ∧
      st'.profiles.countP (·.user == uid) = 1 ∧
      st'.users = uid :: st.users := by
  have hstep : createUser st uid =
      .ok { users := uid :: st.users,
            profiles := { user := uid } :: st.profiles } := by
    simp [createUser, fireUserPostSave, save_profile, create_profile]
  refine ⟨_, hstep, ?_, rfl⟩
  simp [List.countP_cons, hfresh]

/-- Claim C9 witness: creating user 1 on an empty store yields exactly
one Profile row for user 1. -/
theorem profile_created_exactly_once_witness :
    (UserTable.mk [] []).profiles.countP (·.user == 1) = 0 ∧
    ∃ st', createUser (UserTable.mk [] []) 1 = .ok st' ∧
      st'.profiles.countP (·.user == 1) = 1 ∧
      st'.users = 1 :: (UserTable.mk [] []).users :=
  ⟨by decide, profile_created_exactly_once (UserTable.mk [] []) 1 (by decide)⟩

/-- Claim C10: a join request by a user who is already a member leaves
the membership set unchanged, in both branches of the join. -/
theorem duplicate_join_preserves_members (g : StudyGroup) (u : Nat)
    (h : u ∈ g.members) :
    (study_group_join g u).1.members = g.members := by
  unfold study_group_join
  by_cases hlt : (g.members.length : Int) < g.max_members <;>
    simp [hlt, addMember, h]

/-- Claim C10 witness: member 1 of a two-member group with room to spare
joins again and the member list is untouched. -/
theorem duplicate_join_preserves_members_witness :
    1 ∈ [1, 2] ∧
    (study_group_join ⟨"g", 0, 0, [1, 2], true, 5⟩ 1).1.members = [1, 2] :=
  ⟨by decide,
    duplicate_join_preserves_members ⟨"g", 0, 0, [1, 2], true, 5⟩ 1 (by decide)⟩

end LearningHub
